import Mathlib

/-!
Verification development for `power_monitor.py` (mac-volt-monitor).

The Python program runs a background `DataCollector` thread that fetches raw
text from `ioreg` / `system_profiler` / `pmset` subprocesses, extracts fields
with regular expressions, and updates a shared `PowerData` object under a lock.

Shallow embedding conventions:
* Python arbitrary-precision `int` is `Nat` (for `(\d+)` captures) or `Int`
  (for the `(-?\d+)` amperage capture).
* Python `float` arithmetic is modelled by exact rationals `Rat`;
  `round(x, n)` is modelled by rounding to `n` decimal places.
* One regex search over the fetched text is modelled by its result: an
  `Option` capture (`none` = the pattern does not occur in the text), and a
  substring-containment test (`'...' in ioreg_out`) by a `Bool`.  The record
  `IoregOut` collects, for one fetched raw text blob, exactly the match
  results of the patterns `DataCollector.run` searches for.
* Time-dependent metadata (`last_update_time`, `poll_latency`) is carried in
  the state but not modelled by the update function, which is a pure function
  of the fetched text and the previous state.
-/

namespace PowerMonitor

/-- Result of the `re.search` calls inside the `AdapterDetails` brace group
(line 143-151 of `power_monitor.py`): each sub-field capture is a decimal
`(\d+)` or absent. -/
structure AdapterGroup where
  adapterVoltage : Option Nat
  current : Option Nat
  watts : Option Nat
  deriving DecidableEq, Repr

/-- Match results of every pattern `DataCollector.run` applies to the raw
text returned by the `ioreg` query.  A `Bool` field records a substring
containment test; an `Option` field records a regex capture (`none` when the
pattern does not occur in the text). -/
structure IoregOut where
  externalConnected : Bool
  rawExternalConnected : Bool
  currentCapacity : Option Nat
  maxCapacity : Option Nat
  isCharging : Bool
  fullyCharged : Bool
  timeRemaining : Option Nat
  temperature : Option Nat
  voltage : Option Nat
  instantAmperage : Option Int
  amperage : Option Int
  cycleCount : Option Nat
  designCapacity : Option Nat
  appleRawMaxCapacity : Option Nat
  adapterDetails : Option AdapterGroup
  deriving DecidableEq, Repr

/-- The raw text blob containing none of the searched patterns — what an
empty string (a failed fetch) parses to. -/
def emptyIoreg : IoregOut :=
  { externalConnected := false
    rawExternalConnected := false
    currentCapacity := none
    maxCapacity := none
    isCharging := false
    fullyCharged := false
    timeRemaining := none
    temperature := none
    voltage := none
    instantAmperage := none
    amperage := none
    cycleCount := none
    designCapacity := none
    appleRawMaxCapacity := none
    adapterDetails := none }

/-- Match results of the two patterns the slow (30 s) check applies:
`Condition:\s*(\w+)` over the `system_profiler` output and
`lowpowermode\s+(\d)` over the `pmset -g` output. -/
structure SlowOut where
  conditionWord : Option String
  lowpowermode : Option Nat
  deriving DecidableEq, Repr

/-- The shared data model: class `PowerData` of `power_monitor.py`
(lines 19-56). -/
structure PowerData where
  power_source : String
  battery_percent : Nat
  charging_status : String
  time_remaining : String
  cycle_count : Nat
  condition : String
  max_capacity_percent : Rat
  charger_wattage : Nat
  charger_connected : Bool
  fully_charged : Bool
  low_power_mode : Bool
  temperature : Rat
  voltage : Rat
  amperage : Int
  power_watts : Rat
  adapter_voltage : Rat
  adapter_current : Nat
  adapter_watts : Nat
  serial : String
  design_capacity : Nat
  current_capacity : Nat
  mode : String
  poll_interval : Rat
  power_history : List Rat
  temp_history : List Rat
  deriving DecidableEq, Repr

/-- `PowerData.__init__` (lines 21-56): the state the single shared
instance is constructed with before the collector starts. -/
def PowerData.init : PowerData :=
  { power_source := "Unknown"
    battery_percent := 0
    charging_status := "Unknown"
    time_remaining := "Unknown"
    cycle_count := 0
    condition := "Checking..."
    max_capacity_percent := 100
    charger_wattage := 0
    charger_connected := false
    fully_charged := false
    low_power_mode := false
    temperature := 0
    voltage := 0
    amperage := 0
    power_watts := 0
    adapter_voltage := 0
    adapter_current := 0
    adapter_watts := 0
    serial := "Unknown"
    design_capacity := 0
    current_capacity := 0
    mode := "BALANCED"
    poll_interval := 2
    power_history := []
    temp_history := [] }

/-- Round a rational to the nearest integer, ties to even — the model of
Python `round` over the exact-rational embedding of `float` arithmetic. -/
def roundHalfEven (q : Rat) : Int :=
  let f := ⌊q⌋
  let r := q - (f : Rat)
  if r < 1 / 2 then f
  else if 1 / 2 < r then f + 1
  else if 2 ∣ f then f else f + 1

/-- Python `round(x, 2)` modelled over `Rat` (round to 2 decimal places). -/
def round2 (q : Rat) : Rat := (roundHalfEven (q * 100) : Rat) / 100

/-- Python `round(x, 1)` modelled over `Rat` (round to 1 decimal place). -/
def round1 (q : Rat) : Rat := (roundHalfEven (q * 10) : Rat) / 10

/-- Append to a `collections.deque` with `maxlen = cap`: the new element
goes on the right and the oldest elements are evicted from the left so that
at most `cap` remain. -/
def dequeAppend (cap : Nat) (l : List Rat) (x : Rat) : List Rat :=
  let l2 := l ++ [x]
  if cap < l2.length then l2.drop (l2.length - cap) else l2

/-- The f-string `f"{mins // 60}h {mins % 60}m"` (line 110). -/
def timeFmt (mins : Nat) : String :=
  toString (mins / 60) ++ "h " ++ toString (mins % 60) ++ "m"

/-- Lines 87-90: power source and charger-connected flag, from the two
substring containment tests for `ExternalConnected`. -/
def updConnection (t : IoregOut) (d : PowerData) : PowerData :=
  let ext_conn := t.externalConnected || t.rawExternalConnected
  { d with power_source := if ext_conn then "AC Power" else "Battery"
           charger_connected := ext_conn }

/-- Lines 92-96: battery percent is assigned the raw `CurrentCapacity`
capture, but only when both the `CurrentCapacity` and `MaxCapacity`
patterns matched. -/
def updBatteryPercent (t : IoregOut) (d : PowerData) : PowerData :=
  match t.currentCapacity, t.maxCapacity with
  | some c, some _ => { d with battery_percent := c }
  | _, _ => d

/-- Lines 98-103: charging status from the `IsCharging` / `FullyCharged`
containment tests and the connection flag. -/
def updChargingStatus (t : IoregOut) (d : PowerData) : PowerData :=
  let ext_conn := t.externalConnected || t.rawExternalConnected
  { d with charging_status :=
      if t.fullyCharged then "Fully Charged"
      else if t.isCharging then "Charging"
      else if !ext_conn then "Discharging" else "Connected" }

/-- Lines 105-110: time remaining, with the 65535 sentinel. -/
def updTimeRemaining (t : IoregOut) (d : PowerData) : PowerData :=
  match t.timeRemaining with
  | some mins =>
      { d with time_remaining :=
          if mins = 65535 then "Calculating..." else timeFmt mins }
  | none => d

/-- Lines 112-114: temperature from deciKelvin. -/
def updTemperature (t : IoregOut) (d : PowerData) : PowerData :=
  match t.temperature with
  | some r => { d with temperature := round1 ((r : Rat) / 10 - 273.15) }
  | none => d

/-- Lines 117-118: voltage from millivolts. -/
def updVoltage (t : IoregOut) (d : PowerData) : PowerData :=
  match t.voltage with
  | some v => { d with voltage := (v : Rat) / 1000 }
  | none => d

/-- Lines 120-126: amperage with `Amperage` fallback and the strict
`amp > 2**63` two's-complement correction. -/
def updAmperage (t : IoregOut) (d : PowerData) : PowerData :=
  match (t.instantAmperage.orElse fun _ => t.amperage) with
  | some a => { d with amperage := if a > 2 ^ 63 then a - 2 ^ 64 else a }
  | none => d

/-- Lines 128-129: power draw recomputed from the (just updated) voltage
and amperage, then appended to the power history deque.  Note the
temperature history deque is not appended to anywhere in `run`. -/
def updPowerWatts (d : PowerData) : PowerData :=
  let d := { d with power_watts :=
               round2 (d.voltage * (d.amperage.natAbs : Rat) / 1000) }
  { d with power_history := dequeAppend 100 d.power_history d.power_watts }

/-- Lines 131-140: cycle count, design capacity, then raw max capacity; the
health percent is recomputed only inside the `AppleRawMaxCapacity` match and
only when the stored design capacity is strictly positive. -/
def updHealthCycles (t : IoregOut) (d : PowerData) : PowerData :=
  let d := match t.cycleCount with
           | some c => { d with cycle_count := c }
           | none => d
  let d := match t.designCapacity with
           | some c => { d with design_capacity := c }
           | none => d
  match t.appleRawMaxCapacity with
  | some c =>
      let d := { d with current_capacity := c }
      if 0 < d.design_capacity then
        { d with max_capacity_percent :=
            round1 ((c : Rat) / (d.design_capacity : Rat) * 100) }
      else d
  | none => d

/-- Lines 142-151: adapter sub-fields, parsed only inside the brace group. -/
def updAdapter (t : IoregOut) (d : PowerData) : PowerData :=
  match t.adapterDetails with
  | some ad =>
      let d := match ad.adapterVoltage with
               | some v => { d with adapter_voltage := (v : Rat) / 1000 }
               | none => d
      let d := match ad.current with
               | some c => { d with adapter_current := c }
               | none => d
      match ad.watts with
      | some w => { d with charger_wattage := w }
      | none => d
  | none => d

/-- One fast-cycle parse-and-update step of `DataCollector.run`
(lines 86-154), as a pure function of the previous state and the match
results of the fetched text.  The stages are applied in source order. -/
def collectUpdate (d : PowerData) (t : IoregOut) : PowerData :=
  updAdapter t (updHealthCycles t (updPowerWatts (updAmperage t
    (updVoltage t (updTemperature t (updTimeRemaining t
      (updChargingStatus t (updBatteryPercent t (updConnection t d)))))))))

/-- The slow (30 s) check's update step (lines 156-168): battery condition
retains on a miss, but the low-power-mode flag is reassigned every slow
cycle, to `False` when the `lowpowermode` pattern is absent. -/
def slowUpdate (d : PowerData) (s : SlowOut) : PowerData :=
  let d := match s.conditionWord with
           | some c => { d with condition := c }
           | none => d
  { d with low_power_mode :=
      match s.lowpowermode with
      | some dgt => dgt = 1
      | none => false }

/-- Outcome of one `subprocess.run(cmd_args, capture_output=True, text=True,
timeout=5, shell=False)` call: the subprocess completed within the timeout
(with some exit code and captured stdout), the 5-second timeout expired
(`subprocess.TimeoutExpired`), or spawning/running raised any other
exception. -/
inductive SubprocessOutcome where
  | completed (exitCode : Int) (stdout : String)
  | timedOut
  | spawnFailed
  deriving DecidableEq, Repr

/-- `DataCollector.run_command` (lines 69-75).  `subprocess.run` is called
without `check=True`, so a completed subprocess returns its
`CompletedProcess` whatever the exit code, and `run_command` returns its
`stdout`; `TimeoutExpired` and every other exception are caught by the bare
`except Exception` and yield `""`.  Totality of this function is the
never-raises property. -/
def run_command (r : SubprocessOutcome) : String :=
  match r with
  | .completed _ out => out
  | .timedOut => ""
  | .spawnFailed => ""

/-!
Normal form of one fast-cycle update.  For each field the functions below
give its value after `collectUpdate` as a function of the match results and
the field's previous value (plus, for the health percent, the design
capacity in force at the check).  They exist to state and prove lemmas; the
reference semantics remains `collectUpdate`.
-/

/-- Value of `ext_conn` (line 88). -/
def extConnAfter (t : IoregOut) : Bool :=
  t.externalConnected || t.rawExternalConnected

/-- Battery percent after one update. -/
def batteryPercentAfter (t : IoregOut) (prev : Nat) : Nat :=
  match t.currentCapacity, t.maxCapacity with
  | some c, some _ => c
  | _, _ => prev

/-- Charging status after one update. -/
def chargingStatusAfter (t : IoregOut) : String :=
  if t.fullyCharged then "Fully Charged"
  else if t.isCharging then "Charging"
  else if !extConnAfter t then "Discharging" else "Connected"

/-- Time-remaining string after one update. -/
def timeRemainingAfter (t : IoregOut) (prev : String) : String :=
  match t.timeRemaining with
  | some mins => if mins = 65535 then "Calculating..." else timeFmt mins
  | none => prev

/-- Temperature after one update. -/
def temperatureAfter (t : IoregOut) (prev : Rat) : Rat :=
  match t.temperature with
  | some r => round1 ((r : Rat) / 10 - 273.15)
  | none => prev

/-- Voltage after one update. -/
def voltageAfter (t : IoregOut) (prev : Rat) : Rat :=
  match t.voltage with
  | some v => (v : Rat) / 1000
  | none => prev

/-- Amperage after one update. -/
def amperageAfter (t : IoregOut) (prev : Int) : Int :=
  match (t.instantAmperage.orElse fun _ => t.amperage) with
  | some a => if a > 2 ^ 63 then a - 2 ^ 64 else a
  | none => prev

/-- Power draw after one update: recomputed from the updated voltage and
amperage. -/
def powerWattsAfter (t : IoregOut) (prevV : Rat) (prevA : Int) : Rat :=
  round2 (voltageAfter t prevV * ((amperageAfter t prevA).natAbs : Rat) / 1000)

/-- Cycle count after one update. -/
def cycleCountAfter (t : IoregOut) (prev : Nat) : Nat :=
  match t.cycleCount with
  | some c => c
  | none => prev

/-- Design capacity after one update. -/
def designCapacityAfter (t : IoregOut) (prev : Nat) : Nat :=
  match t.designCapacity with
  | some c => c
  | none => prev

/-- Current (raw max) capacity after one update. -/
def currentCapacityAfter (t : IoregOut) (prev : Nat) : Nat :=
  match t.appleRawMaxCapacity with
  | some c => c
  | none => prev

/-- Health percent after one update; `design` is the design capacity in
force at the check, i.e. already updated from the same blob. -/
def healthAfter (t : IoregOut) (design : Nat) (prev : Rat) : Rat :=
  match t.appleRawMaxCapacity with
  | some c => if 0 < design then round1 ((c : Rat) / (design : Rat) * 100) else prev
  | none => prev

/-- Adapter voltage after one update. -/
def adapterVoltageAfter (t : IoregOut) (prev : Rat) : Rat :=
  match t.adapterDetails with
  | some ad => match ad.adapterVoltage with
               | some v => (v : Rat) / 1000
               | none => prev
  | none => prev

/-- Adapter current after one update. -/
def adapterCurrentAfter (t : IoregOut) (prev : Nat) : Nat :=
  match t.adapterDetails with
  | some ad => match ad.current with
               | some c => c
               | none => prev
  | none => prev

/-- Charger wattage after one update. -/
def chargerWattageAfter (t : IoregOut) (prev : Nat) : Nat :=
  match t.adapterDetails with
  | some ad => match ad.watts with
               | some w => w
               | none => prev
  | none => prev

theorem updConnection_eq (t : IoregOut) (d : PowerData) :
    updConnection t d =
      { d with power_source := if extConnAfter t then "AC Power" else "Battery"
               charger_connected := extConnAfter t } := rfl

theorem updBatteryPercent_eq (t : IoregOut) (d : PowerData) :
    updBatteryPercent t d =
      { d with battery_percent := batteryPercentAfter t d.battery_percent } := by
  obtain ⟨ec, rec, cc, mc, ic, fc, tr, tp, v, ia, am, cy, dc, rmc, ad⟩ := t
  cases cc <;> cases mc <;> rfl

theorem updChargingStatus_eq (t : IoregOut) (d : PowerData) :
    updChargingStatus t d = { d with charging_status := chargingStatusAfter t } := rfl

theorem updTimeRemaining_eq (t : IoregOut) (d : PowerData) :
    updTimeRemaining t d =
      { d with time_remaining := timeRemainingAfter t d.time_remaining } := by
  obtain ⟨ec, rec, cc, mc, ic, fc, tr, tp, v, ia, am, cy, dc, rmc, ad⟩ := t
  cases tr <;> rfl

theorem updTemperature_eq (t : IoregOut) (d : PowerData) :
    updTemperature t d =
      { d with temperature := temperatureAfter t d.temperature } := by
  obtain ⟨ec, rec, cc, mc, ic, fc, tr, tp, v, ia, am, cy, dc, rmc, ad⟩ := t
  cases tp <;> rfl

theorem updVoltage_eq (t : IoregOut) (d : PowerData) :
    updVoltage t d = { d with voltage := voltageAfter t d.voltage } := by
  obtain ⟨ec, rec, cc, mc, ic, fc, tr, tp, v, ia, am, cy, dc, rmc, ad⟩ := t
  cases v <;> rfl

theorem updAmperage_eq (t : IoregOut) (d : PowerData) :
    updAmperage t d = { d with amperage := amperageAfter t d.amperage } := by
  obtain ⟨ec, rec, cc, mc, ic, fc, tr, tp, v, ia, am, cy, dc, rmc, ad⟩ := t
  cases ia <;> cases am <;> rfl

theorem updPowerWatts_eq (d : PowerData) :
    updPowerWatts d =
      { d with power_watts := round2 (d.voltage * (d.amperage.natAbs : Rat) / 1000)
               power_history := dequeAppend 100 d.power_history
                 (round2 (d.voltage * (d.amperage.natAbs : Rat) / 1000)) } := rfl

theorem updHealthCycles_eq (t : IoregOut) (d : PowerData) :
    updHealthCycles t d =
      { d with cycle_count := cycleCountAfter t d.cycle_count
               design_capacity := designCapacityAfter t d.design_capacity
               current_capacity := currentCapacityAfter t d.current_capacity
               max_capacity_percent :=
                 healthAfter t (designCapacityAfter t d.design_capacity)
                   d.max_capacity_percent } := by
  obtain ⟨ec, rec, cc, mc, ic, fc, tr, tp, v, ia, am, cy, dc, rmc, ad⟩ := t
  cases cy <;> cases dc <;> cases rmc <;>
    simp only [updHealthCycles, cycleCountAfter, designCapacityAfter,
      currentCapacityAfter, healthAfter] <;>
    split <;> rfl

theorem updAdapter_eq (t : IoregOut) (d : PowerData) :
    updAdapter t d =
      { d with adapter_voltage := adapterVoltageAfter t d.adapter_voltage
               adapter_current := adapterCurrentAfter t d.adapter_current
               charger_wattage := chargerWattageAfter t d.charger_wattage } := by
  obtain ⟨ec, rec, cc, mc, ic, fc, tr, tp, v, ia, am, cy, dc, rmc, ad⟩ := t
  cases ad with
  | none => rfl
  | some a =>
      obtain ⟨av, ac, aw⟩ := a
      cases av <;> cases ac <;> cases aw <;> rfl

/-- Normal form of one fast-cycle update: every field of the result,
explicitly. -/
theorem collectUpdate_eq (d : PowerData) (t : IoregOut) :
    collectUpdate d t =
      { d with power_source := if extConnAfter t then "AC Power" else "Battery"
               charger_connected := extConnAfter t
               battery_percent := batteryPercentAfter t d.battery_percent
               charging_status := chargingStatusAfter t
               time_remaining := timeRemainingAfter t d.time_remaining
               temperature := temperatureAfter t d.temperature
               voltage := voltageAfter t d.voltage
               amperage := amperageAfter t d.amperage
               power_watts := powerWattsAfter t d.voltage d.amperage
               power_history := dequeAppend 100 d.power_history
                 (powerWattsAfter t d.voltage d.amperage)
               cycle_count := cycleCountAfter t d.cycle_count
               design_capacity := designCapacityAfter t d.design_capacity
               current_capacity := currentCapacityAfter t d.current_capacity
               max_capacity_percent :=
                 healthAfter t (designCapacityAfter t d.design_capacity)
                   d.max_capacity_percent
               adapter_voltage := adapterVoltageAfter t d.adapter_voltage
               adapter_current := adapterCurrentAfter t d.adapter_current
               charger_wattage := chargerWattageAfter t d.charger_wattage } := by
  show updAdapter t (updHealthCycles t (updPowerWatts (updAmperage t
    (updVoltage t (updTemperature t (updTimeRemaining t
      (updChargingStatus t (updBatteryPercent t (updConnection t d))))))))) = _
  rw [updConnection_eq, updBatteryPercent_eq, updChargingStatus_eq,
    updTimeRemaining_eq, updTemperature_eq, updVoltage_eq, updAmperage_eq,
    updPowerWatts_eq, updHealthCycles_eq, updAdapter_eq]
  rfl

theorem roundHalfEven_intCast (n : Int) : roundHalfEven ((n : Int) : Rat) = n := by
  unfold roundHalfEven
  simp

theorem roundHalfEven_nonneg (q : Rat) (h : 0 ≤ q) : 0 ≤ roundHalfEven q := by
  unfold roundHalfEven
  have hf : (0 : Int) ≤ ⌊q⌋ := Int.floor_nonneg.mpr h
  dsimp only
  split
  · exact hf
  · split
    · omega
    · split <;> omega

theorem round2_nonneg (q : Rat) (h : 0 ≤ q) : 0 ≤ round2 q := by
  unfold round2
  have h1 : 0 ≤ roundHalfEven (q * 100) := roundHalfEven_nonneg _ (by positivity)
  positivity

theorem dequeAppend_length (cap : Nat) (l : List Rat) (x : Rat) :
    (dequeAppend cap l x).length = min (l.length + 1) cap := by
  unfold dequeAppend
  dsimp only
  split
  next h =>
    simp only [List.length_drop, List.length_append, List.length_cons,
      List.length_nil] at h ⊢
    omega
  next h =>
    simp only [List.length_append, List.length_cons, List.length_nil] at h ⊢
    omega

theorem dequeAppend_length_le (cap : Nat) (l : List Rat) (x : Rat)
    (h : l.length ≤ cap) : (dequeAppend cap l x).length ≤ cap := by
  rw [dequeAppend_length]
  omega

theorem dequeAppend_of_lt (cap : Nat) (l : List Rat) (x : Rat)
    (h : l.length < cap) : dequeAppend cap l x = l ++ [x] := by
  unfold dequeAppend
  dsimp only
  rw [if_neg]
  simp only [List.length_append, List.length_cons, List.length_nil, not_lt]
  omega

theorem dequeAppend_of_full (cap : Nat) (l : List Rat) (x : Rat)
    (h : l.length = cap) : dequeAppend cap l x = (l ++ [x]).drop 1 := by
  unfold dequeAppend
  dsimp only
  rw [if_pos]
  · congr 1
    simp only [List.length_append, List.length_cons, List.length_nil]
    omega
  · simp only [List.length_append, List.length_cons, List.length_nil]
    omega

theorem foldl_dequeAppend (cap : Nat) (xs : List Rat) : ∀ acc : List Rat,
    acc.length ≤ cap →
    xs.foldl (dequeAppend cap) acc = (acc ++ xs).drop (acc.length + xs.length - cap) := by
  induction xs with
  | nil =>
      intro acc h
      simp only [List.foldl_nil, List.length_nil, List.append_nil, Nat.add_zero]
      rw [Nat.sub_eq_zero_of_le h, List.drop_zero]
  | cons x xs ih =>
      intro acc h
      rcases Nat.lt_or_ge acc.length cap with hlt | hge
      · rw [List.foldl_cons, dequeAppend_of_lt cap acc x hlt,
          ih (acc ++ [x]) (by simp only [List.length_append, List.length_cons,
            List.length_nil]; omega)]
        rw [List.append_assoc, List.singleton_append]
        congr 1
        simp only [List.length_append, List.length_cons, List.length_nil]
        omega
      · have heq : acc.length = cap := le_antisymm h hge
        rw [List.foldl_cons, dequeAppend_of_full cap acc x heq,
          ih ((acc ++ [x]).drop 1) (by simp only [List.length_drop,
            List.length_append, List.length_cons, List.length_nil]; omega)]
        have h1 : ((acc ++ [x]) ++ xs).drop 1 = (acc ++ [x]).drop 1 ++ xs :=
          List.drop_append_of_le_length (by simp)
        rw [← h1, List.drop_drop]
        have h2 : acc ++ x :: xs = (acc ++ [x]) ++ xs := by simp
        rw [h2]
        congr 1
        simp only [List.length_drop, List.length_append, List.length_cons,
          List.length_nil]
        omega

theorem batteryPercentAfter_idem (t : IoregOut) (p : Nat) :
    batteryPercentAfter t (batteryPercentAfter t p) = batteryPercentAfter t p := by
  unfold batteryPercentAfter
  rcases t.currentCapacity with _ | c <;> rcases t.maxCapacity with _ | m <;> rfl

theorem timeRemainingAfter_idem (t : IoregOut) (p : String) :
    timeRemainingAfter t (timeRemainingAfter t p) = timeRemainingAfter t p := by
  unfold timeRemainingAfter
  rcases t.timeRemaining with _ | m <;> rfl

theorem temperatureAfter_idem (t : IoregOut) (p : Rat) :
    temperatureAfter t (temperatureAfter t p) = temperatureAfter t p := by
  unfold temperatureAfter
  rcases t.temperature with _ | r <;> rfl

theorem voltageAfter_idem (t : IoregOut) (p : Rat) :
    voltageAfter t (voltageAfter t p) = voltageAfter t p := by
  unfold voltageAfter
  rcases t.voltage with _ | v <;> rfl

theorem amperageAfter_idem (t : IoregOut) (p : Int) :
    amperageAfter t (amperageAfter t p) = amperageAfter t p := by
  unfold amperageAfter
  rcases t.instantAmperage with _ | a <;> rcases t.amperage with _ | b <;> rfl

theorem cycleCountAfter_idem (t : IoregOut) (p : Nat) :
    cycleCountAfter t (cycleCountAfter t p) = cycleCountAfter t p := by
  unfold cycleCountAfter
  rcases t.cycleCount with _ | c <;> rfl

theorem designCapacityAfter_idem (t : IoregOut) (p : Nat) :
    designCapacityAfter t (designCapacityAfter t p) = designCapacityAfter t p := by
  unfold designCapacityAfter
  rcases t.designCapacity with _ | c <;> rfl

theorem currentCapacityAfter_idem (t : IoregOut) (p : Nat) :
    currentCapacityAfter t (currentCapacityAfter t p) = currentCapacityAfter t p := by
  unfold currentCapacityAfter
  rcases t.appleRawMaxCapacity with _ | c <;> rfl

theorem healthAfter_idem (t : IoregOut) (design : Nat) (p : Rat) :
    healthAfter t design (healthAfter t design p) = healthAfter t design p := by
  unfold healthAfter
  rcases t.appleRawMaxCapacity with _ | c
  · rfl
  · dsimp only
    split <;> rfl

theorem adapterVoltageAfter_idem (t : IoregOut) (p : Rat) :
    adapterVoltageAfter t (adapterVoltageAfter t p) = adapterVoltageAfter t p := by
  unfold adapterVoltageAfter
  rcases t.adapterDetails with _ | ⟨av, ac, aw⟩
  · rfl
  · rcases av with _ | v <;> rfl

theorem adapterCurrentAfter_idem (t : IoregOut) (p : Nat) :
    adapterCurrentAfter t (adapterCurrentAfter t p) = adapterCurrentAfter t p := by
  unfold adapterCurrentAfter
  rcases t.adapterDetails with _ | ⟨av, ac, aw⟩
  · rfl
  · rcases ac with _ | c <;> rfl

theorem chargerWattageAfter_idem (t : IoregOut) (p : Nat) :
    chargerWattageAfter t (chargerWattageAfter t p) = chargerWattageAfter t p := by
  unfold chargerWattageAfter
  rcases t.adapterDetails with _ | ⟨av, ac, aw⟩
  · rfl
  · rcases aw with _ | w <;> rfl

theorem voltageAfter_nonneg (t : IoregOut) (p : Rat) (h : 0 ≤ p) :
    0 ≤ voltageAfter t p := by
  unfold voltageAfter
  rcases t.voltage with _ | v
  · exact h
  · positivity

/-!
Claims.
-/

/-- C1 (amended): every regex-captured Snapshot field — battery percent,
time remaining, temperature, voltage, amperage, cycle count, design
capacity, current capacity, health percent, the adapter sub-fields, and the
battery condition — retains its previous value on a parse miss; in
particular a `CycleCount` miss after a cycle where it was 42 leaves it
at 42.  (The presence-flag-derived fields — power source, charger-connected
flag, charging status, and the slow-cycle low-power-mode flag — are instead
recomputed every cycle and fall back to their pattern-absent values.) -/
theorem C1_parse_miss_retention (d : PowerData) (t : IoregOut) (s : SlowOut) :
    (t.currentCapacity = none ∨ t.maxCapacity = none →
      (collectUpdate d t).battery_percent = d.battery_percent)
  ∧ (t.timeRemaining = none →
      (collectUpdate d t).time_remaining = d.time_remaining)
  ∧ (t.temperature = none → (collectUpdate d t).temperature = d.temperature)
  ∧ (t.voltage = none → (collectUpdate d t).voltage = d.voltage)
  ∧ (t.instantAmperage = none → t.amperage = none →
      (collectUpdate d t).amperage = d.amperage)
  ∧ (t.cycleCount = none → (collectUpdate d t).cycle_count = d.cycle_count)
  ∧ (t.designCapacity = none →
      (collectUpdate d t).design_capacity = d.design_capacity)
  ∧ (t.appleRawMaxCapacity = none →
      (collectUpdate d t).current_capacity = d.current_capacity ∧
      (collectUpdate d t).max_capacity_percent = d.max_capacity_percent)
  ∧ (t.adapterDetails = none →
      (collectUpdate d t).adapter_voltage = d.adapter_voltage ∧
      (collectUpdate d t).adapter_current = d.adapter_current ∧
      (collectUpdate d t).charger_wattage = d.charger_wattage)
  ∧ (collectUpdate d t).condition = d.condition
  ∧ (s.conditionWord = none → (slowUpdate d s).condition = d.condition)
  ∧ (d.cycle_count = 42 → t.cycleCount = none →
      (collectUpdate d t).cycle_count = 42) := by
  rw [collectUpdate_eq]
  refine ⟨fun h => ?_, fun h => ?_, fun h => ?_, fun h => ?_, fun h1 h2 => ?_,
    fun h => ?_, fun h => ?_, fun h => ?_, fun h => ?_, rfl, fun h => ?_,
    fun h42 h => ?_⟩
  · rcases h with h | h
    · simp [batteryPercentAfter, h]
    · rcases hc : t.currentCapacity with _ | c <;>
        simp [batteryPercentAfter, h, hc]
  · simp [timeRemainingAfter, h]
  · simp [temperatureAfter, h]
  · simp [voltageAfter, h]
  · simp [amperageAfter, h1, h2]
  · simp [cycleCountAfter, h]
  · simp [designCapacityAfter, h]
  · exact ⟨by simp [currentCapacityAfter, h], by simp [healthAfter, h]⟩
  · exact ⟨by simp [adapterVoltageAfter, h],
      by simp [adapterCurrentAfter, h], by simp [chargerWattageAfter, h]⟩
  · simp [slowUpdate, h]
  · simp [cycleCountAfter, h, h42]

/-- Witness for C1: a cycle with an empty blob leaves a prior cycle count
of 42 unchanged. -/
theorem C1_parse_miss_retention_witness :
    (collectUpdate { PowerData.init with cycle_count := 42 }
      emptyIoreg).cycle_count = 42 := by
  have h := C1_parse_miss_retention { PowerData.init with cycle_count := 42 }
    emptyIoreg ⟨none, none⟩
  exact h.2.2.2.2.2.2.2.2.2.2.2 rfl rfl

/-- C1 counterexample to the claim as stated: on a blob containing none of
the patterns, the charger-connected flag is reset to `false`, the power
source to `Battery`, and on a slow cycle with no `lowpowermode` line the
low-power-mode flag is reset to `false` — these fields do not retain their
previous values. -/
theorem C1_counterexample :
    (collectUpdate { PowerData.init with
      charger_connected := true, power_source := "AC Power",
      low_power_mode := true } emptyIoreg).charger_connected = false
  ∧ ({ PowerData.init with
      charger_connected := true, power_source := "AC Power",
      low_power_mode := true } : PowerData).charger_connected = true
  ∧ (collectUpdate { PowerData.init with
      charger_connected := true, power_source := "AC Power",
      low_power_mode := true } emptyIoreg).power_source = "Battery"
  ∧ (slowUpdate { PowerData.init with
      charger_connected := true, power_source := "AC Power",
      low_power_mode := true } ⟨none, none⟩).low_power_mode = false :=
  ⟨rfl, rfl, rfl, rfl⟩

/-- C2 (amended): when both the `CurrentCapacity` and `MaxCapacity`
patterns are present, the battery percent is assigned the raw
`CurrentCapacity` value itself — no ratio with `MaxCapacity` is taken — so
it lies in [0, 100] exactly when the raw value is at most 100. -/
theorem C2_battery_percent_raw (d : PowerData) (t : IoregOut) (c m : Nat)
    (hc : t.currentCapacity = some c) (hm : t.maxCapacity = some m) :
    (collectUpdate d t).battery_percent = c
  ∧ (c ≤ 100 → (collectUpdate d t).battery_percent ≤ 100) := by
  rw [collectUpdate_eq]
  refine ⟨?_, fun h => ?_⟩
  · simp [batteryPercentAfter, hc, hm]
  · simp [batteryPercentAfter, hc, hm, h]

/-- Witness for C2: raw current 80 with max 100 yields battery percent 80,
within [0, 100]. -/
theorem C2_battery_percent_raw_witness :
    (collectUpdate PowerData.init { emptyIoreg with
      currentCapacity := some 80, maxCapacity := some 100 }).battery_percent
      = 80 :=
  (C2_battery_percent_raw PowerData.init
    { emptyIoreg with currentCapacity := some 80, maxCapacity := some 100 }
    80 100 rfl rfl).1

/-- C2 counterexample: raw current 200 with max 300 satisfies
0 ≤ current ≤ max, yet the resulting battery percent is 200, outside
[0, 100]. -/
theorem C2_counterexample :
    (collectUpdate PowerData.init { emptyIoreg with
      currentCapacity := some 200, maxCapacity := some 300 }).battery_percent
      = 200
  ∧ ¬ ((collectUpdate PowerData.init { emptyIoreg with
      currentCapacity := some 200,
      maxCapacity := some 300 }).battery_percent ≤ 100) :=
  ⟨rfl, by decide⟩

/-- C3 (amended): the stored amperage is `v - 2^64` when the raw value `v`
is strictly greater than `2^63`, and `v` itself when `v ≤ 2^63`; so raw
`2^63 + 100` parses to `2^63 + 100 - 2^64` (which is `100 - 2^63`) and raw
`500` parses to `500`, while the boundary value `2^63` itself is left
uncorrected. -/
theorem C3_amperage_twos_complement (d : PowerData) (t : IoregOut) (a : Int)
    (ha : (t.instantAmperage.orElse fun _ => t.amperage) = some a) :
    (2 ^ 63 < a → (collectUpdate d t).amperage = a - 2 ^ 64)
  ∧ (a ≤ 2 ^ 63 → (collectUpdate d t).amperage = a) := by
  rw [collectUpdate_eq]
  refine ⟨fun h => ?_, fun h => ?_⟩
  · simp only [amperageAfter, ha]
    rw [if_pos h]
  · simp only [amperageAfter, ha]
    rw [if_neg (not_lt.mpr h)]

/-- Witness for C3: raw value 500 is stored unchanged. -/
theorem C3_amperage_twos_complement_witness :
    (collectUpdate PowerData.init { emptyIoreg with
      instantAmperage := some 500 }).amperage = 500 :=
  (C3_amperage_twos_complement PowerData.init
    { emptyIoreg with instantAmperage := some 500 } 500 rfl).2 (by decide)

/-- C3 counterexample to the claim as stated: raw `2^63` is stored as
`2^63` (the code's test is strict), not `2^63 - 2^64`; and raw `2^63 + 100`
is stored as `2^63 + 100 - 2^64`, which differs from the claimed
`100 - 2^64`. -/
theorem C3_counterexample :
    ((collectUpdate PowerData.init { emptyIoreg with
        instantAmperage := some (2 ^ 63) }).amperage = 2 ^ 63
      ∧ (2 : Int) ^ 63 ≠ 2 ^ 63 - 2 ^ 64)
  ∧ ((collectUpdate PowerData.init { emptyIoreg with
        instantAmperage := some (2 ^ 63 + 100) }).amperage
        = 2 ^ 63 + 100 - 2 ^ 64
      ∧ (2 : Int) ^ 63 + 100 - 2 ^ 64 ≠ 100 - 2 ^ 64) := by
  refine ⟨⟨by decide, by decide⟩, ⟨by decide, by decide⟩⟩

/-- C4 (amended): `run_command` is a total function of the subprocess
outcome (it never propagates an exception); it returns the captured
standard output whenever the subprocess completes within the timeout —
whatever the exit code — and empty text on a timeout or a spawn failure. -/
theorem C4_run_command_total :
    (∀ (exitCode : Int) (stdout : String),
      run_command (.completed exitCode stdout) = stdout)
  ∧ run_command .timedOut = ""
  ∧ run_command .spawnFailed = "" :=
  ⟨fun _ _ => rfl, rfl, rfl⟩

/-- C4 counterexample to the claim as stated: a subprocess that exits with
a non-zero code after printing text does not yield empty text —
`subprocess.run` is called without `check=True`, so a non-zero exit raises
nothing and the captured stdout is returned as-is. -/
theorem C4_counterexample :
    run_command (.completed 1 "error output") = "error output"
  ∧ run_command (.completed 1 "error output") ≠ "" :=
  ⟨rfl, by decide⟩

/-- C5 (amended): each cycle appends the recomputed power draw to the
power history deque, which is bounded at 100 samples with oldest-first
eviction, and appending 150 samples leaves exactly the last 100; the
temperature history buffer, however, is never appended to. -/
theorem C5_power_history_bounded :
    (∀ d t, (collectUpdate d t).power_history
        = dequeAppend 100 d.power_history ((collectUpdate d t).power_watts)
      ∧ (collectUpdate d t).temp_history = d.temp_history)
  ∧ (∀ (l : List Rat) (x : Rat), l.length ≤ 100 →
      (dequeAppend 100 l x).length ≤ 100)
  ∧ (∀ xs : List Rat, xs.length = 150 →
      xs.foldl (dequeAppend 100) [] = xs.drop 50) := by
  refine ⟨fun d t => ⟨?_, ?_⟩,
    fun l x h => dequeAppend_length_le 100 l x h, fun xs h => ?_⟩
  · rw [collectUpdate_eq]
  · rw [collectUpdate_eq]
  · rw [foldl_dequeAppend 100 xs [] (by simp)]
    simp [h]

/-- Witness for C5: folding 150 concrete samples through the deque leaves
the last 100. -/
theorem C5_power_history_bounded_witness :
    (List.replicate 150 (0 : Rat)).foldl (dequeAppend 100) []
      = (List.replicate 150 (0 : Rat)).drop 50 :=
  C5_power_history_bounded.2.2 (List.replicate 150 (0 : Rat)) (by simp)

/-- C5 counterexample to the claim as stated: a cycle whose blob carries a
temperature reading appends to the power history but leaves the
temperature history empty — temperature is never appended to its buffer. -/
theorem C5_counterexample :
    (collectUpdate PowerData.init { emptyIoreg with
      temperature := some 3001 }).temp_history = []
  ∧ (collectUpdate PowerData.init { emptyIoreg with
      temperature := some 3001 }).power_history.length = 1 :=
  ⟨rfl, rfl⟩

/-- C6: a parsed time-remaining of 65535 renders as the sentinel
"Calculating..." (never the formatted "1092h 15m"), and any other parsed
value m renders as "{m // 60}h {m % 60}m" — 125 as "2h 5m" and 0 as
"0h 0m". -/
theorem C6_time_remaining_format (d : PowerData) (t : IoregOut) (m : Nat)
    (hm : t.timeRemaining = some m) :
    ((collectUpdate d t).time_remaining
      = if m = 65535 then "Calculating..." else timeFmt m)
  ∧ timeFmt 125 = "2h 5m"
  ∧ timeFmt 0 = "0h 0m"
  ∧ "Calculating..." ≠ "1092h 15m" := by
  rw [collectUpdate_eq]
  exact ⟨by simp [timeRemainingAfter, hm], by decide, by decide, by decide⟩

/-- Witness for C6: a parsed value of 125 minutes renders as "2h 5m". -/
theorem C6_time_remaining_format_witness :
    (collectUpdate PowerData.init { emptyIoreg with
      timeRemaining := some 125 }).time_remaining = "2h 5m" := by
  rw [(C6_time_remaining_format PowerData.init
    { emptyIoreg with timeRemaining := some 125 } 125 rfl).1]
  decide

/-- C7: after every update the power draw equals
`round2 (voltage * |amperage| / 1000)` computed from the snapshot's
updated voltage and amperage (never stale), it is nonnegative whenever the
previous voltage was (as it always is along runs from the initial state),
and the documented examples hold: voltage 12.0 V with amperage −500 mA
gives 6.0 W, and amperage 0 gives 0.0 W. -/
theorem C7_power_draw_recomputed (d : PowerData) (t : IoregOut) :
    ((collectUpdate d t).power_watts
      = round2 ((collectUpdate d t).voltage
          * (((collectUpdate d t).amperage.natAbs : Nat) : Rat) / 1000))
  ∧ (0 ≤ d.voltage → 0 ≤ (collectUpdate d t).power_watts)
  ∧ (0 ≤ d.voltage → 0 ≤ (collectUpdate d t).voltage)
  ∧ (collectUpdate PowerData.init { emptyIoreg with
      voltage := some 12000, instantAmperage := some (-500) }).power_watts = 6
  ∧ (collectUpdate PowerData.init { emptyIoreg with
      instantAmperage := some 0 }).power_watts = 0 := by
  rw [collectUpdate_eq]
  refine ⟨rfl, fun h => ?_, fun h => voltageAfter_nonneg t d.voltage h,
    ?_, ?_⟩
  · apply round2_nonneg
    have hv : 0 ≤ voltageAfter t d.voltage := voltageAfter_nonneg t d.voltage h
    apply div_nonneg _ (by norm_num)
    exact mul_nonneg hv (by positivity)
  · rw [collectUpdate_eq]
    show round2 (voltageAfter _ _ * ((amperageAfter _ _).natAbs : Rat) / 1000) = 6
    have ha : amperageAfter { emptyIoreg with
        voltage := some 12000, instantAmperage := some (-500) }
        PowerData.init.amperage = -500 := by decide
    have hv : voltageAfter { emptyIoreg with
        voltage := some 12000, instantAmperage := some (-500) }
        PowerData.init.voltage = (12000 : Rat) / 1000 := rfl
    rw [ha, hv]
    have h1 : (12000 : Rat) / 1000 * (((-500 : Int).natAbs : Nat) : Rat) / 1000
        * 100 = ((600 : Int) : Rat) := by norm_num
    unfold round2
    rw [h1, roundHalfEven_intCast]
    norm_num
  · rw [collectUpdate_eq]
    show round2 (voltageAfter _ _ * ((amperageAfter _ _).natAbs : Rat) / 1000) = 0
    have ha : amperageAfter { emptyIoreg with instantAmperage := some 0 }
        PowerData.init.amperage = 0 := by decide
    have hv : voltageAfter { emptyIoreg with instantAmperage := some 0 }
        PowerData.init.voltage = 0 := rfl
    rw [ha, hv]
    have h1 : (0 : Rat) * (((0 : Int).natAbs : Nat) : Rat) / 1000 * 100
        = ((0 : Int) : Rat) := by norm_num
    unfold round2
    rw [h1, roundHalfEven_intCast]
    norm_num

/-- Witness for C7: from the initial state, an empty blob yields a
nonnegative power draw. -/
theorem C7_power_draw_recomputed_witness :
    0 ≤ (collectUpdate PowerData.init emptyIoreg).power_watts :=
  (C7_power_draw_recomputed PowerData.init emptyIoreg).2.1 (le_refl 0)

/-- C8 (amended): running the parse-and-update step twice on the same blob
leaves every Snapshot field equal to running it once, except the power
history buffer, which receives one appended sample per run. -/
theorem C8_parse_idempotent_scalar (d : PowerData) (t : IoregOut) :
    collectUpdate (collectUpdate d t) t
      = { collectUpdate d t with
          power_history :=
            (collectUpdate (collectUpdate d t) t).power_history } := by
  rw [collectUpdate_eq (collectUpdate d t) t, collectUpdate_eq d t]
  simp only [powerWattsAfter, batteryPercentAfter_idem, timeRemainingAfter_idem,
    temperatureAfter_idem, voltageAfter_idem, amperageAfter_idem,
    cycleCountAfter_idem, designCapacityAfter_idem, currentCapacityAfter_idem,
    healthAfter_idem, adapterVoltageAfter_idem, adapterCurrentAfter_idem,
    chargerWattageAfter_idem]

/-- C8 counterexample to the claim as stated: the power history after two
identical runs holds two samples, after one run a single sample — that
Snapshot field does not have the same value. -/
theorem C8_counterexample :
    (collectUpdate (collectUpdate PowerData.init emptyIoreg)
      emptyIoreg).power_history.length = 2
  ∧ (collectUpdate PowerData.init emptyIoreg).power_history.length = 1 :=
  ⟨rfl, rfl⟩

/-- C9 (amended): the constructor initializes power source, charging
status, time remaining and serial to "Unknown", the battery condition to
"Checking..." (not "Unknown"), the numeric fields to 0 except the
max-capacity (health) percent which starts at 100 (not 0), the flags to
false, the histories to empty, and the poll mode to BALANCED with a
2.0-second interval. -/
theorem C9_init_defaults :
    PowerData.init.power_source = "Unknown"
  ∧ PowerData.init.charging_status = "Unknown"
  ∧ PowerData.init.time_remaining = "Unknown"
  ∧ PowerData.init.serial = "Unknown"
  ∧ PowerData.init.condition = "Checking..."
  ∧ PowerData.init.battery_percent = 0
  ∧ PowerData.init.cycle_count = 0
  ∧ PowerData.init.max_capacity_percent = 100
  ∧ PowerData.init.charger_wattage = 0
  ∧ PowerData.init.temperature = 0
  ∧ PowerData.init.voltage = 0
  ∧ PowerData.init.amperage = 0
  ∧ PowerData.init.power_watts = 0
  ∧ PowerData.init.adapter_voltage = 0
  ∧ PowerData.init.adapter_current = 0
  ∧ PowerData.init.adapter_watts = 0
  ∧ PowerData.init.design_capacity = 0
  ∧ PowerData.init.current_capacity = 0
  ∧ PowerData.init.charger_connected = false
  ∧ PowerData.init.fully_charged = false
  ∧ PowerData.init.low_power_mode = false
  ∧ PowerData.init.mode = "BALANCED"
  ∧ PowerData.init.poll_interval = 2
  ∧ PowerData.init.power_history = []
  ∧ PowerData.init.temp_history = [] :=
  ⟨rfl, rfl, rfl, rfl, rfl, rfl, rfl, rfl, rfl, rfl, rfl, rfl, rfl, rfl,
   rfl, rfl, rfl, rfl, rfl, rfl, rfl, rfl, rfl, rfl, rfl⟩

/-- C9 counterexample to the claim as stated: the battery condition string
is initialized to "Checking...", not "Unknown", and the max-capacity
percent — a numeric field — is initialized to 100, not 0. -/
theorem C9_counterexample :
    PowerData.init.condition = "Checking..."
  ∧ "Checking..." ≠ "Unknown"
  ∧ PowerData.init.max_capacity_percent = 100
  ∧ (100 : Rat) ≠ 0 :=
  ⟨rfl, by decide, rfl, by norm_num⟩

/-- C10: the health percent is recomputed exactly when the
`AppleRawMaxCapacity` pattern is present and the design capacity in force
after this cycle's update is strictly positive — so the division's divisor
is always positive — and in every other case it retains its previous
value. -/
theorem C10_health_guard (d : PowerData) (t : IoregOut) :
    (collectUpdate d t).max_capacity_percent =
      match t.appleRawMaxCapacity with
      | some c =>
          if 0 < (collectUpdate d t).design_capacity then
            round1 ((c : Rat) / (((collectUpdate d t).design_capacity : Nat) : Rat) * 100)
          else d.max_capacity_percent
      | none => d.max_capacity_percent := by
  rw [collectUpdate_eq]
  rcases h : t.appleRawMaxCapacity with _ | c <;> simp [healthAfter, h]

end PowerMonitor
